import Mathlib

/-!
Shallow embedding of `master/buildbot/reporters/bitbucketserver.py`.

The module defines two reporters:
 - `BitbucketServerStatusPush.send` posts one build-status record per source
   stamp of a build, resolving each stamp's commit hash from the stamp's
   `revision` field or the build's `got_revision` property;
 - `BitbucketServerPRCommentPush.sendMessage` posts a comment on each distinct
   pull-request URL found in a batch of builds, and
   `BitbucketServerPRCommentPush.isMessageNeeded` filters builds without a
   `pullrequesturl` property out of the comment pipeline.

External collaborators (the HTTP transport, property-template rendering and
URL parsing) are modelled as injected function parameters; the processing
logic itself is translated from the source.  Python exceptions (the `KeyError`
that `got_revision[sourcestamp['codebase']]` can raise) are made explicit in
an `aborted` field of the result: a `some` value means the exception
propagated out of `send` at that point and the remaining source stamps were
not processed.
-/

namespace BitbucketServer

/-- Magic words understood by the Bitbucket Server REST API (source line 35). -/
def INPROGRESS : String := "INPROGRESS"

/-- Source line 36. -/
def SUCCESSFUL : String := "SUCCESSFUL"

/-- Source line 37. -/
def FAILED : String := "FAILED"

/-- `STATUS_API_URL.format(sha=sha)` (source line 38). -/
def STATUS_API_URL (sha : String) : String := "/rest/build-status/1.0/commits/" ++ sha

/-- `COMMENT_API_URL.format(path=path)` (source line 39). -/
def COMMENT_API_URL (path : String) : String := "/rest/api/1.0" ++ path ++ "/comments"

/-- Source line 40. -/
def HTTP_PROCESSED : Nat := 204

/-- Source line 41. -/
def HTTP_CREATED : Nat := 201

/-- `buildbot.process.results.SUCCESS`, an external constant imported on source
line 24; its value in buildbot is the integer 0. -/
def SUCCESS : Int := 0

/-- A build property value: `got_revision` "could be a string, a dictionary or
None" (source line 73); absence/None is modelled as `Option.none` around this
type.  Dictionaries are association lists from codebase name to revision. -/
inductive PropValue where
  | str : String → PropValue
  | dict : List (String × String) → PropValue
deriving DecidableEq

/-- One source stamp of a build: `codebase` and a nullable `revision`. -/
structure SourceStamp where
  codebase : String
  revision : Option String
deriving DecidableEq

/-- The fields of the `build` dictionary that `send` reads. -/
structure Build where
  complete : Bool
  results : Int
  properties : List (String × PropValue)
  url : String
  sourcestamps : List SourceStamp
deriving DecidableEq

/-- `props.getProperty(name, None)`: look the property up in the build's
property mapping, `none` when absent. -/
def getProperty (props : List (String × PropValue)) (name : String) :
    Option PropValue :=
  (props.find? (fun p => p.1 == name)).map (fun p => p.2)

/-- Python dictionary lookup `d[k]` as an option (the `none` case is where
Python raises `KeyError`). -/
def dictLookup (d : List (String × String)) (k : String) : Option String :=
  (d.find? (fun p => p.1 == k)).map (fun p => p.2)

/-- Source lines 76-82: `sha = sourcestamp['revision']`; if that is null, take
`got_revision[sourcestamp['codebase']]` when `got_revision` is a dict (raising
`KeyError`, modelled as `Except.error codebase`, when the key is missing), and
`got_revision` itself otherwise.  `Except.ok none` is the still-null case of
source line 84. -/
def resolveSha (got_revision : Option PropValue) (ss : SourceStamp) :
    Except String (Option String) :=
  match ss.revision with
  | some sha => Except.ok (some sha)
  | none =>
    match got_revision with
    | some (PropValue.dict d) =>
      match dictLookup d ss.codebase with
      | some v => Except.ok (some v)
      | none => Except.error ss.codebase
    | some (PropValue.str s) => Except.ok (some s)
    | none => Except.ok none

/-- The log stream: each constructor records one `log.error`/`log.info` call
with its structured arguments. -/
inductive LogEvent where
  | unableToGetHash
  | statusSent (status sha : String)
  | statusSendError (code : Nat) (content : String)
  | commentSent (comment : String) (url : Option PropValue)
  | commentSendError (code : Nat) (content : String)
deriving DecidableEq

/-- An HTTP response: `response.code` and `response.content()`. -/
structure Response where
  code : Nat
  content : String
deriving DecidableEq

/-- The JSON payload posted to the status endpoint (source lines 89-97). -/
structure StatusPayload where
  state : String
  url : String
  key : String
  description : Option String
  name : Option String
deriving DecidableEq

/-- The JSON payload posted to the comment endpoint (source line 157). -/
structure CommentPayload where
  text : String
deriving DecidableEq

/-- Configuration of `BitbucketServerStatusPush` after `reconfigService`
(source lines 48-57).  `render` is the external property-interpolation
service `props.render`, applied to the build's properties and a template. -/
structure StatusConfig where
  key : String
  statusName : Option String
  startDescription : String
  endDescription : String
  verbose : Bool
  render : List (String × PropValue) → String → String

/-- Source lines 89-97: build the status payload; `description` and
`statusName` are attached only when truthy (Python `if description:` /
`if self.statusName:` — empty strings and None are falsy). -/
def mkStatusPayload (cfg : StatusConfig) (props : List (String × PropValue))
    (status description url : String) : StatusPayload :=
  { state := status
    url := url
    key := cfg.render props cfg.key
    description := if description == "" then none else some (cfg.render props description)
    name :=
      match cfg.statusName with
      | some n => if n == "" then none else some (cfg.render props n)
      | none => none }

/-- Source lines 100-107: classify the response to one status POST.
204 is success, logged only when verbose; any other code logs an error
carrying the status code and the response body. -/
def statusResponseLogs (verbose : Bool) (status sha : String) (resp : Response) :
    List LogEvent :=
  if resp.code == HTTP_PROCESSED then
    if verbose then [LogEvent.statusSent status sha] else []
  else
    [LogEvent.statusSendError resp.code resp.content]

/-- The observable outcome of one `send` call: the POSTs issued in order
(endpoint path and payload), the log events in order, and — when the
`got_revision[codebase]` lookup raised `KeyError` — the missing codebase key
(`none` means `send` returned normally). -/
structure SendResult where
  posts : List (String × StatusPayload)
  logs : List LogEvent
  aborted : Option String
deriving DecidableEq

/-- The per-source-stamp loop of `send` (source lines 75-107).  `http` is the
external transport: given a path and a payload it produces the response.  A
`KeyError` from `resolveSha` stops the loop with nothing further posted or
logged, mirroring the uncaught Python exception. -/
def sendLoop (cfg : StatusConfig) (http : String → StatusPayload → Response)
    (props : List (String × PropValue)) (status description url : String)
    (got_revision : Option PropValue) : List SourceStamp → SendResult
  | [] => { posts := [], logs := [], aborted := none }
  | ss :: rest =>
    match resolveSha got_revision ss with
    | Except.error cb => { posts := [], logs := [], aborted := some cb }
    | Except.ok none =>
      let r := sendLoop cfg http props status description url got_revision rest
      { posts := r.posts
        logs := LogEvent.unableToGetHash :: r.logs
        aborted := r.aborted }
    | Except.ok (some sha) =>
      let payload := mkStatusPayload cfg props status description url
      let resp := http (STATUS_API_URL sha) payload
      let r := sendLoop cfg http props status description url got_revision rest
      { posts := (STATUS_API_URL sha, payload) :: r.posts
        logs := statusResponseLogs cfg.verbose status sha resp ++ r.logs
        aborted := r.aborted }

/-- Source lines 66-71: the state string for the build. -/
def buildState (build : Build) : String :=
  if build.complete then
    (if build.results == SUCCESS then SUCCESSFUL else FAILED)
  else INPROGRESS

/-- Source lines 66-71: the description template chosen for the build. -/
def buildDescription (cfg : StatusConfig) (build : Build) : String :=
  if build.complete then cfg.endDescription else cfg.startDescription

/-- `BitbucketServerStatusPush.send` (source lines 62-107). -/
def send (cfg : StatusConfig) (http : String → StatusPayload → Response)
    (build : Build) : SendResult :=
  sendLoop cfg http build.properties (buildState build)
    (buildDescription cfg build) build.url
    (getProperty build.properties "got_revision") build.sourcestamps

/-- Configuration of `BitbucketServerPRCommentPush` after `reconfigService`
(source lines 113-123). -/
structure CommentConfig where
  verbose : Bool

/-- Source lines 162-169: classify the response to one comment POST.
201 is success, logged only when verbose; any other code logs an error
carrying the status code and the response body. -/
def commentResponseLogs (verbose : Bool) (body : String) (pr_url : Option PropValue)
    (resp : Response) : List LogEvent :=
  if resp.code == HTTP_CREATED then
    if verbose then [LogEvent.commentSent body pr_url] else []
  else
    [LogEvent.commentSendError resp.code resp.content]

/-- The observable outcome of one `sendMessage` call: the POSTs issued
(endpoint path and payload) and the log events. -/
structure SendMessageResult where
  posts : List (String × CommentPayload)
  logs : List LogEvent
deriving DecidableEq

/-- The per-pull-request-URL loop of `sendMessage` (source lines 154-169).
`parsePath` is the external `urlparse(unicode2bytes(pr_url)).path` chain
extracting the path component of a URL. -/
def commentLoop (cfg : CommentConfig) (http : String → CommentPayload → Response)
    (parsePath : Option PropValue → String) (body : String) :
    List (Option PropValue) → SendMessageResult
  | [] => { posts := [], logs := [] }
  | u :: rest =>
    let path := parsePath u
    let payload : CommentPayload := { text := body }
    let resp := http (COMMENT_API_URL path) payload
    let r := commentLoop cfg http parsePath body rest
    { posts := (COMMENT_API_URL path, payload) :: r.posts
      logs := commentResponseLogs cfg.verbose body u resp ++ r.logs }

/-- Source lines 150-153: the set `pr_urls` of distinct `pullrequesturl`
property values across the builds of the batch (a Python `set`; modelled as
the deduplicated list, which has the same cardinality). -/
def prUrls (builds : List Build) : List (Option PropValue) :=
  (builds.map (fun b => getProperty b.properties "pullrequesturl")).dedup

/-- `BitbucketServerPRCommentPush.sendMessage` (source lines 146-169). -/
def sendMessage (cfg : CommentConfig) (http : String → CommentPayload → Response)
    (parsePath : Option PropValue → String) (body : String)
    (builds : List Build) : SendMessageResult :=
  commentLoop cfg http parsePath body (prUrls builds)

/-- `BitbucketServerPRCommentPush.isMessageNeeded` (source lines 137-140):
defer to the base class only when `'pullrequesturl' in build['properties']`;
the base class decision is the injected `baseIsMessageNeeded`. -/
def isMessageNeeded (baseIsMessageNeeded : Build → Bool) (build : Build) : Bool :=
  if build.properties.any (fun p => p.1 == "pullrequesturl") then
    baseIsMessageNeeded build
  else false

/-- `true` exactly when resolving this source stamp raises `KeyError`
(a null `revision` and a `got_revision` dictionary missing the codebase). -/
def shaKeyError (got : Option PropValue) (ss : SourceStamp) : Bool :=
  match resolveSha got ss with
  | Except.error _ => true
  | Except.ok _ => false

/-- `true` exactly when resolving this source stamp yields a non-null sha. -/
def resolvesToSha (got : Option PropValue) (ss : SourceStamp) : Bool :=
  match resolveSha got ss with
  | Except.ok (some _) => true
  | _ => false

/-! ### Example configuration and transports shared by witnesses -/

/-- A concrete rendering service: every template renders to itself. -/
def exRender : List (String × PropValue) → String → String := fun _ t => t

/-- A concrete transport that always answers 204. -/
def exHttp : String → StatusPayload → Response := fun _ _ => { code := 204, content := "" }

/-- A concrete status-push configuration with the source's defaults. -/
def exCfg : StatusConfig :=
  { key := "builder"
    statusName := none
    startDescription := "Build started."
    endDescription := "Build done."
    verbose := false
    render := exRender }

/-- A completed successful build with one source stamp carrying an explicit
revision. -/
def exBuild1 : Build :=
  { complete := true
    results := 0
    properties := []
    url := "http://build/1"
    sourcestamps := [{ codebase := "", revision := some "abc123" }] }

/-- The single POST `send` issues for `exBuild1`. -/
def exPost1 : String × StatusPayload :=
  (STATUS_API_URL "abc123",
    mkStatusPayload exCfg exBuild1.properties (buildState exBuild1)
      (buildDescription exCfg exBuild1) exBuild1.url)

/-! ### Helper lemmas about the send loop -/

/-- Every POST issued by the loop carries the payload built from the loop's
fixed status/description/url arguments. -/
theorem sendLoop_posts_payload (cfg : StatusConfig)
    (http : String → StatusPayload → Response)
    (props : List (String × PropValue)) (status description url : String)
    (got : Option PropValue) :
    ∀ (l : List SourceStamp) (p : String × StatusPayload),
      p ∈ (sendLoop cfg http props status description url got l).posts →
      p.2 = mkStatusPayload cfg props status description url := by
  intro l
  induction l with
  | nil => intro p hp; simp [sendLoop] at hp
  | cons ss rest ih =>
    intro p hp
    cases hres : resolveSha got ss with
    | error cb => simp [sendLoop, hres] at hp
    | ok o =>
      cases o with
      | none =>
        simp only [sendLoop, hres] at hp
        exact ih p hp
      | some sha =>
        simp only [sendLoop, hres, List.mem_cons] at hp
        cases hp with
        | inl h1 => rw [h1]
        | inr h2 => exact ih p h2

/-- When no source stamp of the list raises `KeyError`, the loop finishes
normally. -/
theorem sendLoop_no_keyerror_aborted (cfg : StatusConfig)
    (http : String → StatusPayload → Response)
    (props : List (String × PropValue)) (status description url : String)
    (got : Option PropValue) :
    ∀ l : List SourceStamp,
      (∀ ss ∈ l, shaKeyError got ss = false) →
      (sendLoop cfg http props status description url got l).aborted = none := by
  intro l
  induction l with
  | nil => intro _; simp [sendLoop]
  | cons ss rest ih =>
    intro h
    cases hres : resolveSha got ss with
    | error cb =>
      have := h ss (List.mem_cons_self ss rest)
      simp [shaKeyError, hres] at this
    | ok o =>
      have hrest : ∀ s ∈ rest, shaKeyError got s = false :=
        fun s hs => h s (List.mem_cons_of_mem ss hs)
      cases o with
      | none => simp only [sendLoop, hres]; exact ih hrest
      | some sha => simp only [sendLoop, hres]; exact ih hrest

/-- When no source stamp raises `KeyError`, the loop posts once per source
stamp that resolves to a non-null sha. -/
theorem sendLoop_posts_length (cfg : StatusConfig)
    (http : String → StatusPayload → Response)
    (props : List (String × PropValue)) (status description url : String)
    (got : Option PropValue) :
    ∀ l : List SourceStamp,
      (∀ ss ∈ l, shaKeyError got ss = false) →
      (sendLoop cfg http props status description url got l).posts.length =
        (l.filter (fun ss => resolvesToSha got ss)).length := by
  intro l
  induction l with
  | nil => intro _; simp [sendLoop]
  | cons ss rest ih =>
    intro h
    have hrest : ∀ s ∈ rest, shaKeyError got s = false :=
      fun s hs => h s (List.mem_cons_of_mem ss hs)
    cases hres : resolveSha got ss with
    | error cb =>
      have := h ss (List.mem_cons_self ss rest)
      simp [shaKeyError, hres] at this
    | ok o =>
      cases o with
      | none =>
        simp only [sendLoop, hres, List.filter_cons]
        have : resolvesToSha got ss = false := by simp [resolvesToSha, hres]
        rw [this]
        simpa using ih hrest
      | some sha =>
        simp only [sendLoop, hres, List.filter_cons]
        have : resolvesToSha got ss = true := by simp [resolvesToSha, hres]
        rw [this]
        simpa using ih hrest

/-! ### The claims -/

/-- C1: For every build passed to `BitbucketServerStatusPush.send`: if the
build's `complete` field is true and its `results` equal SUCCESS, every
emitted status payload has state `SUCCESSFUL`; if `complete` is true and
`results` is any other value, state is `FAILED`; if `complete` is false,
state is `INPROGRESS`. -/
theorem claim1_status_state (cfg : StatusConfig)
    (http : String → StatusPayload → Response) (build : Build)
    (p : String × StatusPayload) (hp : p ∈ (send cfg http build).posts) :
    (build.complete = true → build.results = SUCCESS → p.2.state = SUCCESSFUL) ∧
    (build.complete = true → build.results ≠ SUCCESS → p.2.state = FAILED) ∧
    (build.complete = false → p.2.state = INPROGRESS) := by
  have hpay := sendLoop_posts_payload cfg http build.properties (buildState build)
    (buildDescription cfg build) build.url
    (getProperty build.properties "got_revision") build.sourcestamps p hp
  have hstate : p.2.state = buildState build := by rw [hpay]; rfl
  refine ⟨fun h1 h2 => ?_, fun h1 h2 => ?_, fun h1 => ?_⟩
  · rw [hstate]; simp [buildState, h1, h2]
  · rw [hstate]; simp [buildState, h1, h2]
  · rw [hstate]; simp [buildState, h1]

/-- Witness for C1 at the concrete build `exBuild1`. -/
theorem claim1_status_state_witness :
    (exBuild1.complete = true → exBuild1.results = SUCCESS →
      exPost1.2.state = SUCCESSFUL) ∧
    (exBuild1.complete = true → exBuild1.results ≠ SUCCESS →
      exPost1.2.state = FAILED) ∧
    (exBuild1.complete = false → exPost1.2.state = INPROGRESS) :=
  claim1_status_state exCfg exHttp exBuild1 exPost1 (by decide)

/-- C2: A source stamp with non-null `revision` uses that value verbatim as
the sha: `resolveSha` returns it for every value of `got_revision` (so
`got_revision` is consulted only when `revision` is null), and the POST for
the stamp targets the status endpoint path built from that revision. -/
theorem claim2_revision_verbatim (cfg : StatusConfig)
    (http : String → StatusPayload → Response) (build : Build)
    (ss : SourceStamp) (rest : List SourceStamp) (r : String)
    (hss : build.sourcestamps = ss :: rest) (hr : ss.revision = some r) :
    (∀ got : Option PropValue, resolveSha got ss = Except.ok (some r)) ∧
    (send cfg http build).posts.head? = some (STATUS_API_URL r,
      mkStatusPayload cfg build.properties (buildState build)
        (buildDescription cfg build) build.url) := by
  constructor
  · intro got
    simp [resolveSha, hr]
  · have hres : resolveSha (getProperty build.properties "got_revision") ss =
        Except.ok (some r) := by simp [resolveSha, hr]
    simp [send, hss, sendLoop, hres]

/-- Witness for C2 at the concrete build `exBuild1`. -/
theorem claim2_revision_verbatim_witness :
    (∀ got : Option PropValue,
      resolveSha got { codebase := "", revision := some "abc123" } =
        Except.ok (some "abc123")) ∧
    (send exCfg exHttp exBuild1).posts.head? = some (STATUS_API_URL "abc123",
      mkStatusPayload exCfg exBuild1.properties (buildState exBuild1)
        (buildDescription exCfg exBuild1) exBuild1.url) :=
  claim2_revision_verbatim exCfg exHttp exBuild1
    { codebase := "", revision := some "abc123" } [] "abc123" rfl rfl

/-- C3: For a source stamp with null revision, when `got_revision` is a
per-codebase mapping holding the stamp's codebase, the resolved sha is the
mapping's value at that codebase, and the POST for the stamp targets the
status endpoint path built from that value. -/
theorem claim3_codebase_mapping (cfg : StatusConfig)
    (http : String → StatusPayload → Response) (build : Build)
    (ss : SourceStamp) (rest : List SourceStamp)
    (d : List (String × String)) (v : String)
    (hss : build.sourcestamps = ss :: rest)
    (hrev : ss.revision = none)
    (hgot : getProperty build.properties "got_revision" = some (PropValue.dict d))
    (hd : dictLookup d ss.codebase = some v) :
    resolveSha (getProperty build.properties "got_revision") ss =
      Except.ok (some v) ∧
    (send cfg http build).posts.head? = some (STATUS_API_URL v,
      mkStatusPayload cfg build.properties (buildState build)
        (buildDescription cfg build) build.url) := by
  have hres : resolveSha (getProperty build.properties "got_revision") ss =
      Except.ok (some v) := by simp [resolveSha, hrev, hgot, hd]
  exact ⟨hres, by simp [send, hss, sendLoop, hres]⟩

/-- A build whose only source stamp has a null revision resolved through a
per-codebase `got_revision` mapping. -/
def exBuild3 : Build :=
  { complete := false
    results := 0
    properties := [("got_revision", PropValue.dict [("lib", "fff111")])]
    url := "http://build/3"
    sourcestamps := [{ codebase := "lib", revision := none }] }

/-- Witness for C3 at the concrete build `exBuild3`. -/
theorem claim3_codebase_mapping_witness :
    resolveSha (getProperty exBuild3.properties "got_revision")
      { codebase := "lib", revision := none } = Except.ok (some "fff111") ∧
    (send exCfg exHttp exBuild3).posts.head? = some (STATUS_API_URL "fff111",
      mkStatusPayload exCfg exBuild3.properties (buildState exBuild3)
        (buildDescription exCfg exBuild3) exBuild3.url) :=
  claim3_codebase_mapping exCfg exHttp exBuild3
    { codebase := "lib", revision := none } [] [("lib", "fff111")] "fff111"
    rfl rfl rfl rfl

/-- C4: When both the stamp's `revision` and the `got_revision` resolution
yield null, `send` logs the resolution error, issues no POST for that stamp,
and behaves on the remaining stamps exactly as it would on a build holding
only them — in particular no exception propagates from this case. -/
theorem claim4_skip_and_continue (cfg : StatusConfig)
    (http : String → StatusPayload → Response) (build : Build)
    (ss : SourceStamp) (rest : List SourceStamp)
    (hss : build.sourcestamps = ss :: rest)
    (hrev : ss.revision = none)
    (hgot : getProperty build.properties "got_revision" = none) :
    (send cfg http build).posts =
      (send cfg http { build with sourcestamps := rest }).posts ∧
    (send cfg http build).logs = LogEvent.unableToGetHash ::
      (send cfg http { build with sourcestamps := rest }).logs ∧
    (send cfg http build).aborted =
      (send cfg http { build with sourcestamps := rest }).aborted := by
  have hres : resolveSha (getProperty build.properties "got_revision") ss =
      Except.ok none := by simp [resolveSha, hrev, hgot]
  refine ⟨?_, ?_, ?_⟩ <;>
    simp [send, hss, sendLoop, hres, buildState, buildDescription]

/-- A build whose first source stamp is unresolvable (null revision, no
`got_revision` property) and whose second carries an explicit revision. -/
def exBuild4 : Build :=
  { complete := true
    results := 2
    properties := []
    url := "http://build/4"
    sourcestamps := [{ codebase := "app", revision := none },
                     { codebase := "lib", revision := some "beef" }] }

/-- Witness for C4 at the concrete build `exBuild4`: the unresolvable first
stamp is skipped with an error log and the second stamp is still processed. -/
theorem claim4_skip_and_continue_witness :
    (send exCfg exHttp exBuild4).posts =
      (send exCfg exHttp { exBuild4 with
        sourcestamps := [{ codebase := "lib", revision := some "beef" }] }).posts ∧
    (send exCfg exHttp exBuild4).logs = LogEvent.unableToGetHash ::
      (send exCfg exHttp { exBuild4 with
        sourcestamps := [{ codebase := "lib", revision := some "beef" }] }).logs ∧
    (send exCfg exHttp exBuild4).aborted =
      (send exCfg exHttp { exBuild4 with
        sourcestamps := [{ codebase := "lib", revision := some "beef" }] }).aborted :=
  claim4_skip_and_continue exCfg exHttp exBuild4
    { codebase := "app", revision := none }
    [{ codebase := "lib", revision := some "beef" }] rfl rfl rfl

/-- A build whose first source stamp has a null revision and a codebase
missing from the `got_revision` mapping, and whose second stamp carries an
explicit revision that would resolve fine. -/
def exBuild5 : Build :=
  { complete := true
    results := 0
    properties := [("got_revision", PropValue.dict [("other", "x")])]
    url := "http://build/5"
    sourcestamps := [{ codebase := "a", revision := none },
                     { codebase := "b", revision := some "abc" }] }

/-- C5 counterexample: on `exBuild5` the `got_revision["a"]` lookup raises
`KeyError` out of `send`, and the sibling source stamp with the perfectly
resolvable revision `"abc"` is never posted — the exception does abort the
processing of sibling source stamps, contrary to the claim. -/
theorem claim5_counterexample :
    (send exCfg exHttp exBuild5).aborted = some "a" ∧
    (send exCfg exHttp exBuild5).posts = [] :=
  ⟨rfl, rfl⟩

/-- C5 amended: an unresolvable commit hash or a non-success HTTP response
while handling one source stamp or pull-request URL never aborts sibling
units; the one exception that does propagate is the `KeyError` raised when a
source stamp with null revision looks its codebase up in a `got_revision`
mapping that lacks that key, which aborts the remaining source stamps of the
event.  When no source stamp of the build hits that missing-codebase lookup,
`send` returns normally. -/
theorem claim5_amended_no_abort (cfg : StatusConfig)
    (http : String → StatusPayload → Response) (build : Build)
    (h : ∀ ss ∈ build.sourcestamps,
      shaKeyError (getProperty build.properties "got_revision") ss = false) :
    (send cfg http build).aborted = none :=
  sendLoop_no_keyerror_aborted cfg http build.properties (buildState build)
    (buildDescription cfg build) build.url
    (getProperty build.properties "got_revision") build.sourcestamps h

/-- Witness for the amended C5 at the concrete build `exBuild4`. -/
theorem claim5_amended_no_abort_witness :
    (send exCfg exHttp exBuild4).aborted = none :=
  claim5_amended_no_abort exCfg exHttp exBuild4 (by decide)

/-- Two source stamps of one build resolving to the same commit `"abc"`. -/
def exBuild6 : Build :=
  { complete := true
    results := 0
    properties := []
    url := "http://build/6"
    sourcestamps := [{ codebase := "c1", revision := some "abc" },
                     { codebase := "c2", revision := some "abc" }] }

/-- C6 counterexample: on `exBuild6`, one build event emits two status
payloads for the same resolved commit `"abc"` — there is no per-commit
deduplication, contrary to the claim's "never two payloads for the same
resolved commit within one event". -/
theorem claim6_counterexample :
    (send exCfg exHttp exBuild6).posts.map Prod.fst =
      [STATUS_API_URL "abc", STATUS_API_URL "abc"] ∧
    (send exCfg exHttp exBuild6).posts.length = 2 :=
  ⟨rfl, rfl⟩

/-- C6 amended: provided no source stamp raises the missing-codebase
`KeyError` (which would abort the event, see C10), `send` issues exactly one
POST per source stamp whose revision resolves to a non-null value; distinct
source stamps resolving to the same commit each get their own payload, so a
commit may receive several payloads within one event. -/
theorem claim6_amended_post_per_stamp (cfg : StatusConfig)
    (http : String → StatusPayload → Response) (build : Build)
    (h : ∀ ss ∈ build.sourcestamps,
      shaKeyError (getProperty build.properties "got_revision") ss = false) :
    (send cfg http build).posts.length =
      (build.sourcestamps.filter (fun ss =>
        resolvesToSha (getProperty build.properties "got_revision") ss)).length :=
  sendLoop_posts_length cfg http build.properties (buildState build)
    (buildDescription cfg build) build.url
    (getProperty build.properties "got_revision") build.sourcestamps h

/-- Witness for the amended C6 at the concrete build `exBuild4` (one of its
two source stamps resolves). -/
theorem claim6_amended_post_per_stamp_witness :
    (send exCfg exHttp exBuild4).posts.length =
      (exBuild4.sourcestamps.filter (fun ss =>
        resolvesToSha (getProperty exBuild4.properties "got_revision") ss)).length :=
  claim6_amended_post_per_stamp exCfg exHttp exBuild4 (by decide)

/-- The comment loop issues exactly one POST per element of its URL list. -/
theorem commentLoop_posts_length (cfg : CommentConfig)
    (http : String → CommentPayload → Response)
    (parsePath : Option PropValue → String) (body : String) :
    ∀ l : List (Option PropValue),
      (commentLoop cfg http parsePath body l).posts.length = l.length := by
  intro l
  induction l with
  | nil => rfl
  | cons u rest ih => simp [commentLoop, ih]

/-- Deduplication commutes with wrapping every element in `some`. -/
theorem dedup_map_some {α : Type} [DecidableEq α] (l : List α) :
    (l.map Option.some).dedup = l.dedup.map Option.some := by
  induction l with
  | nil => simp
  | cons a l ih =>
    by_cases h : a ∈ l
    · rw [List.map_cons,
        List.dedup_cons_of_mem (by simpa using List.mem_map_of_mem Option.some h),
        List.dedup_cons_of_mem h, ih]
    · rw [List.map_cons, List.dedup_cons_of_not_mem (by simpa using h),
        List.dedup_cons_of_not_mem h, List.map_cons, ih]

/-- When `f` succeeds on every element, mapping `f` is filter-mapping `f`
followed by rewrapping in `some`. -/
theorem map_eq_filterMap_map_some {α β : Type} (f : α → Option β) :
    ∀ l : List α, (∀ a ∈ l, (f a).isSome = true) →
      l.map f = (l.filterMap f).map Option.some := by
  intro l
  induction l with
  | nil => intro _; rfl
  | cons a l ih =>
    intro h
    obtain ⟨v, hv⟩ := Option.isSome_iff_exists.mp (h a (List.mem_cons_self a l))
    have ht := ih (fun x hx => h x (List.mem_cons_of_mem a hx))
    simp [hv, List.filterMap_cons, ht]

/-- C7: for a batch of builds all carrying a `pullrequesturl` property,
`sendMessage` issues exactly one comment POST per distinct pull-request URL
value (which is at most the number of builds). -/
theorem claim7_pr_url_dedup (cfg : CommentConfig)
    (http : String → CommentPayload → Response)
    (parsePath : Option PropValue → String) (body : String)
    (builds : List Build)
    (h : ∀ b ∈ builds, (getProperty b.properties "pullrequesturl").isSome = true) :
    (sendMessage cfg http parsePath body builds).posts.length =
      ((builds.filterMap
        (fun b => getProperty b.properties "pullrequesturl")).dedup).length ∧
    ((builds.filterMap
        (fun b => getProperty b.properties "pullrequesturl")).dedup).length ≤
      builds.length := by
  constructor
  · rw [sendMessage, commentLoop_posts_length, prUrls,
      map_eq_filterMap_map_some _ builds h, dedup_map_some, List.length_map]
  · exact le_trans (List.Sublist.length_le (List.dedup_sublist _))
      (List.length_filterMap_le _ _)

/-- A pull-request build pointing at PR 42. -/
def exPRBuild42 : Build :=
  { complete := true
    results := 0
    properties := [("pullrequesturl", PropValue.str "https://host/prs/42")]
    url := "http://build/7a"
    sourcestamps := [] }

/-- A pull-request build pointing at PR 7. -/
def exPRBuild7 : Build :=
  { complete := true
    results := 2
    properties := [("pullrequesturl", PropValue.str "https://host/prs/7")]
    url := "http://build/7b"
    sourcestamps := [] }

/-- A concrete URL-path extractor for witnesses. -/
def exParsePath : Option PropValue → String := fun u =>
  match u with
  | some (PropValue.str _) => "/prs/42"
  | _ => ""

/-- A concrete comment transport that always answers 201. -/
def exCommentHttp : String → CommentPayload → Response :=
  fun _ _ => { code := 201, content := "" }

/-- Witness for C7: a batch of three builds referencing two distinct
pull-request URLs gets exactly two comment POSTs. -/
theorem claim7_pr_url_dedup_witness :
    (sendMessage { verbose := false } exCommentHttp exParsePath "body"
        [exPRBuild42, exPRBuild42, exPRBuild7]).posts.length =
      (([exPRBuild42, exPRBuild42, exPRBuild7].filterMap
        (fun b => getProperty b.properties "pullrequesturl")).dedup).length ∧
    (([exPRBuild42, exPRBuild42, exPRBuild7].filterMap
        (fun b => getProperty b.properties "pullrequesturl")).dedup).length ≤
      [exPRBuild42, exPRBuild42, exPRBuild7].length :=
  claim7_pr_url_dedup { verbose := false } exCommentHttp exParsePath "body"
    [exPRBuild42, exPRBuild42, exPRBuild7] (by decide)

/-- C8: a build whose properties lack a `pullrequesturl` entry is excluded
from the comment pipeline: `isMessageNeeded` answers `false` for it whatever
the base class would have decided, so it never triggers a comment POST. -/
theorem claim8_no_pullrequesturl_filtered (baseIsMessageNeeded : Build → Bool)
    (build : Build)
    (h : build.properties.any (fun p => p.1 == "pullrequesturl") = false) :
    isMessageNeeded baseIsMessageNeeded build = false := by
  simp only [isMessageNeeded, h]
  exact rfl

/-- Witness for C8 at the concrete build `exBuild1`, whose properties are
empty, against a base class that would notify every build. -/
theorem claim8_no_pullrequesturl_filtered_witness :
    isMessageNeeded (fun _ => true) exBuild1 = false :=
  claim8_no_pullrequesturl_filtered (fun _ => true) exBuild1 (by decide)

/-- C9: classification of one POST's response.  For the status endpoint,
code 204 logs the outcome only at verbose level and any other code logs an
error carrying the status code and the response body; analogously for the
comment endpoint with success code 201.  Moreover the response never makes
`send` raise: whatever the transport answers for a stamp's POST, `send`
continues with the remaining stamps exactly as for a build holding only
them. -/
theorem claim9_response_classification (verbose : Bool) (status sha body : String)
    (pr_url : Option PropValue) (resp : Response) :
    (resp.code = HTTP_PROCESSED → statusResponseLogs verbose status sha resp =
      (if verbose then [LogEvent.statusSent status sha] else [])) ∧
    (resp.code ≠ HTTP_PROCESSED → statusResponseLogs verbose status sha resp =
      [LogEvent.statusSendError resp.code resp.content]) ∧
    (resp.code = HTTP_CREATED → commentResponseLogs verbose body pr_url resp =
      (if verbose then [LogEvent.commentSent body pr_url] else [])) ∧
    (resp.code ≠ HTTP_CREATED → commentResponseLogs verbose body pr_url resp =
      [LogEvent.commentSendError resp.code resp.content]) ∧
    (∀ (cfg : StatusConfig) (http : String → StatusPayload → Response)
        (build : Build) (ss : SourceStamp) (rest : List SourceStamp),
      build.sourcestamps = ss :: rest → ss.revision = some sha →
      (send cfg http build).aborted =
        (send cfg http { build with sourcestamps := rest }).aborted) := by
  refine ⟨fun h => ?_, fun h => ?_, fun h => ?_, fun h => ?_, ?_⟩
  · simp [statusResponseLogs, h]
  · simp [statusResponseLogs, h]
  · simp [commentResponseLogs, h]
  · simp [commentResponseLogs, h]
  · intro cfg http build ss rest hss hr
    have hres : resolveSha (getProperty build.properties "got_revision") ss =
        Except.ok (some sha) := by simp [resolveSha, hr]
    simp [send, hss, sendLoop, hres, buildState, buildDescription]

/-- Witness for C9 at the spec's scenario: HTTP 500 with body
"server error" yields an error log carrying 500 and the body, on both
endpoints. -/
theorem claim9_response_classification_witness :
    statusResponseLogs true "FAILED" "abc" { code := 500, content := "server error" } =
      [LogEvent.statusSendError 500 "server error"] ∧
    commentResponseLogs true "body" none { code := 500, content := "server error" } =
      [LogEvent.commentSendError 500 "server error"] :=
  ⟨(claim9_response_classification true "FAILED" "abc" "body" none
      { code := 500, content := "server error" }).2.1 (by decide),
   (claim9_response_classification true "FAILED" "abc" "body" none
      { code := 500, content := "server error" }).2.2.2.1 (by decide)⟩

/-- C10: for a source stamp with null revision whose codebase is missing from
the `got_revision` mapping, the lookup raises `KeyError` out of `send`
(`aborted` names the missing codebase) and no POST is issued for that source
stamp or any source stamp after it. -/
theorem claim10_keyerror_aborts (cfg : StatusConfig)
    (http : String → StatusPayload → Response) (build : Build)
    (ss : SourceStamp) (rest : List SourceStamp) (d : List (String × String))
    (hss : build.sourcestamps = ss :: rest)
    (hrev : ss.revision = none)
    (hgot : getProperty build.properties "got_revision" = some (PropValue.dict d))
    (hd : dictLookup d ss.codebase = none) :
    (send cfg http build).aborted = some ss.codebase ∧
    (send cfg http build).posts = [] := by
  have hres : resolveSha (getProperty build.properties "got_revision") ss =
      Except.error ss.codebase := by simp [resolveSha, hrev, hgot, hd]
  constructor <;> simp [send, hss, sendLoop, hres]

/-- A build whose first source stamp's codebase is missing from the
`got_revision` mapping while its second stamp's codebase is present. -/
def exBuild10 : Build :=
  { complete := false
    results := 0
    properties := [("got_revision", PropValue.dict [("lib", "fff")])]
    url := "http://build/10"
    sourcestamps := [{ codebase := "app", revision := none },
                     { codebase := "lib", revision := none }] }

/-- Witness for C10 at the concrete build `exBuild10`: the missing "app" key
aborts the event and even the resolvable "lib" stamp gets no POST. -/
theorem claim10_keyerror_aborts_witness :
    (send exCfg exHttp exBuild10).aborted = some "app" ∧
    (send exCfg exHttp exBuild10).posts = [] :=
  claim10_keyerror_aborts exCfg exHttp exBuild10
    { codebase := "app", revision := none }
    [{ codebase := "lib", revision := none }] [("lib", "fff")]
    rfl rfl (by decide) rfl

end BitbucketServer
